import Mathlib

/-!
Shallow embedding of `src/browser.py` (class `BrowserAgentTool`), a thin
adapter over an external browser-automation engine.

The engine is modelled abstractly: every engine call the adapter issues is a
field of `Page` / `Browser` / `Playwright` returning `Except Err _`, so a
value of those structures fixes one possible engine behaviour (success or
failure of each call).  Each adapter method is embedded as a pure function
from the instance state (the three handle fields of `__init__`) to an
`MRes`: the resulting instance state, the list of engine calls issued, and
either a returned value (`Except.ok`) or an uncaught raised error
(`Except.error`).  Python's `try/except Exception` blocks are embedded by
`pyTry`, which maps any error of the guarded body through the handler into
an ordinary string return.  `print` calls are pure console output and are
not modelled.
-/

/-- Errors are carried as their Python message string (what `f"{e}"` shows). -/
abbrev Err := String

/-- The message of the `AttributeError` Python raises when an attribute is
looked up on `None`, as produced by accessing `self.page.<attr>` while
`self.page is None`. -/
def nullAttrErr (attr : String) : Err :=
  "\x27NoneType\x27 object has no attribute \x27" ++ attr ++ "\x27"

/-- One DOM element handle as the adapter uses it: the three engine calls
`element.inner_text()`, `element.evaluate("el => el.tagName")` and the
attribute-collecting `element.evaluate(...)`, each of which may fail. -/
structure Element where
  inner_text : Except Err String
  evaluate_tagName : Except Err String
  evaluate_attributes : Except Err (List (String × String))

/-- The page handle: each engine call issued through `self.page`.
`locator_click sel tm` models `self.page.locator(sel).click(timeout=tm)` and
`locator_fill sel v tm` models `self.page.locator(sel).fill(v, timeout=tm)`. -/
structure Page where
  goto : String → Except Err Unit
  title : Except Err String
  content : Except Err String
  text_content : String → Except Err String
  query_selector_all : String → Except Err (List Element)
  locator_click : String → Nat → Except Err Unit
  locator_fill : String → String → Nat → Except Err Unit

/-- The browser handle: `new_page()` and `close()`. -/
structure Browser where
  new_page : Except Err Page
  close : Except Err Unit

/-- The playwright engine handle: `chromium.launch(headless=True)` and `stop()`. -/
structure Playwright where
  chromium_launch : Except Err Browser
  stop : Except Err Unit

/-- The instance state of `BrowserAgentTool`: exactly the three fields
assigned in `__init__` (all `None` initially). -/
structure BrowserAgentTool where
  playwright : Option Playwright
  browser : Option Browser
  page : Option Page

/-- The fresh instance produced by `BrowserAgentTool.__init__`. -/
def freshTool : BrowserAgentTool := ⟨none, none, none⟩

/-- Observable engine calls, recorded in the order the adapter issues them. -/
inductive Call where
  | start
  | launch
  | newPage
  | goto (url : String)
  | title
  | content
  | textContent (selector : String)
  | queryAll (selector : String)
  | innerText
  | evalTagName
  | evalAttributes
  | locatorClick (selector : String) (timeout : Nat)
  | locatorFill (selector : String) (value : String) (timeout : Nat)
  | closePage
  | closeBrowser
  | stopPlaywright
  deriving DecidableEq

/-- Result of running one adapter method: the instance state afterwards, the
engine calls issued, and the outcome (`ok` = method returned, `error` = an
uncaught Python exception propagated to the caller). -/
structure MRes (α : Type) where
  state : BrowserAgentTool
  trace : List Call
  result : Except Err α

/-- Embedding of a Python `try: <body> except Exception as e: return handler(e)`
whose body and handler both produce a string: a raised error is converted into
an ordinary string return, so the wrapped computation never raises. -/
def pyTry (body : Except Err String) (handler : Err → String) : Except Err String :=
  match body with
  | Except.error e => Except.ok (handler e)
  | Except.ok s => Except.ok s

/-- Embedding of Python `str.strip()`: drop leading and trailing whitespace. -/
def str_strip (s : String) : String :=
  String.mk (((s.data.dropWhile Char.isWhitespace).reverse.dropWhile Char.isWhitespace).reverse)

/-- Python `str(dict)` rendering of a string-to-string attribute dict, as
interpolated by `f"Attributes: {attributes}"`. -/
def reprAttrs (attrs : List (String × String)) : String :=
  "\x7b" ++ String.intercalate ", "
    (attrs.map (fun p => "\x27" ++ p.1 ++ "\x27: \x27" ++ p.2 ++ "\x27")) ++ "\x7d"

/-- Success string of `go_to_url`. -/
def navSuccessMsg (url ttl : String) : String :=
  "Successfully navigated to " ++ url ++ ". The current page title is: \x27" ++ ttl ++ "\x27"

/-- Failure string of `go_to_url`. -/
def navFailMsg (url e : String) : String :=
  "Failed to navigate to " ++ url ++ ". Error: " ++ e

/-- Zero-match return string of `get_elements_by_selector`. -/
def noElementsMsg (selector : String) : String :=
  "No elements found with selector: \x27" ++ selector ++ "\x27"

/-- Report header of `get_elements_by_selector`. -/
def foundHeader (selector : String) (n : Nat) : String :=
  "Found " ++ toString n ++ " elements with selector \x27" ++ selector ++ "\x27:\n"

/-- Catch-all failure string of `get_elements_by_selector`. -/
def elemErrMsg (e : String) : String :=
  "An error occurred while getting elements: " ++ e

/-- Success string of `click_element`. -/
def clickSuccessMsg (selector : String) : String :=
  "Successfully clicked the element with selector \x27" ++ selector ++ "\x27."

/-- Failure string of `click_element`. -/
def clickFailMsg (selector e : String) : String :=
  "Failed to click the element with selector \x27" ++ selector ++ "\x27. Error: " ++ e

/-- Success string of `fill_form`. -/
def fillSuccessMsg (selector : String) : String :=
  "Successfully filled the element with selector \x27" ++ selector ++ "\x27."

/-- Failure string of `fill_form`. -/
def fillFailMsg (selector e : String) : String :=
  "Failed to fill the element with selector \x27" ++ selector ++ "\x27. Error: " ++ e

/-- The per-element block appended by the loop body of
`get_elements_by_selector` for the element at 0-based index `i`. -/
def element_block (i : Nat) (tag text : String) (attrs : List (String × String)) : String :=
  "--- Element " ++ toString (i + 1) ++ " ---\n" ++
  "Tag: " ++ tag ++ "\n" ++
  "Text: " ++ str_strip text ++ "\n" ++
  "Attributes: " ++ reprAttrs attrs ++ "\n\n"

/-- Embeds `BrowserAgentTool.initialize` (named `init_browser` because
`initialize` is a Lean keyword): `start()`, then `chromium.launch`, then
`browser.new_page()`, assigning each handle field as the corresponding call
returns; an error leaves the earlier assignments in place and propagates. -/
def init_browser (start_result : Except Err Playwright) (t : BrowserAgentTool) : MRes Unit :=
  match start_result with
  | Except.error e => ⟨t, [Call.start], Except.error e⟩
  | Except.ok pw =>
    match pw.chromium_launch with
    | Except.error e => ⟨{ t with playwright := some pw }, [Call.start, Call.launch], Except.error e⟩
    | Except.ok br =>
      match br.new_page with
      | Except.error e =>
        ⟨{ t with playwright := some pw, browser := some br },
         [Call.start, Call.launch, Call.newPage], Except.error e⟩
      | Except.ok pg =>
        ⟨{ t with playwright := some pw, browser := some br, page := some pg },
         [Call.start, Call.launch, Call.newPage], Except.ok ()⟩

/-- Engine calls and outcome of `BrowserAgentTool.cleanup`:
`if self.browser: await self.browser.close()` then
`if self.playwright: await self.playwright.stop()`; no try/except, so a
failing close propagates and skips the rest. -/
def cleanup_run (t : BrowserAgentTool) : List Call × Except Err Unit :=
  match t.browser with
  | some br =>
    match br.close with
    | Except.error e => ([Call.closeBrowser], Except.error e)
    | Except.ok _ =>
      match t.playwright with
      | some pw =>
        match pw.stop with
        | Except.error e => ([Call.closeBrowser, Call.stopPlaywright], Except.error e)
        | Except.ok _ => ([Call.closeBrowser, Call.stopPlaywright], Except.ok ())
      | none => ([Call.closeBrowser], Except.ok ())
  | none =>
    match t.playwright with
    | some pw =>
      match pw.stop with
      | Except.error e => ([Call.stopPlaywright], Except.error e)
      | Except.ok _ => ([Call.stopPlaywright], Except.ok ())
    | none => ([], Except.ok ())

/-- Embeds `BrowserAgentTool.cleanup`. It assigns none of the handle fields. -/
def cleanup (t : BrowserAgentTool) : MRes Unit :=
  ⟨t, (cleanup_run t).1, (cleanup_run t).2⟩

/-- The `try` body of `go_to_url`: `self.page.goto(url)` then the return
expression, whose f-string evaluates `self.page.title()`. -/
def go_to_url_try (t : BrowserAgentTool) (url : String) : List Call × Except Err String :=
  match t.page with
  | none => ([], Except.error (nullAttrErr "goto"))
  | some p =>
    match p.goto url with
    | Except.error e => ([Call.goto url], Except.error e)
    | Except.ok _ =>
      match p.title with
      | Except.error e => ([Call.goto url, Call.title], Except.error e)
      | Except.ok ttl => ([Call.goto url, Call.title], Except.ok (navSuccessMsg url ttl))

/-- Embeds `BrowserAgentTool.go_to_url`. -/
def go_to_url (t : BrowserAgentTool) (url : String) : MRes String :=
  ⟨t, (go_to_url_try t url).1, pyTry (go_to_url_try t url).2 (navFailMsg url)⟩

/-- Engine calls and outcome of `get_page_content`: `self.page.content()`,
with no try/except around it. -/
def get_page_content_run (t : BrowserAgentTool) : List Call × Except Err String :=
  match t.page with
  | none => ([], Except.error (nullAttrErr "content"))
  | some p => ([Call.content], p.content)

/-- Embeds `BrowserAgentTool.get_page_content`. -/
def get_page_content (t : BrowserAgentTool) : MRes String :=
  ⟨t, (get_page_content_run t).1, (get_page_content_run t).2⟩

/-- Engine calls and outcome of `get_page_text`:
`self.page.text_content('body')`, with no try/except around it. -/
def get_page_text_run (t : BrowserAgentTool) : List Call × Except Err String :=
  match t.page with
  | none => ([], Except.error (nullAttrErr "text_content"))
  | some p => ([Call.textContent "body"], p.text_content "body")

/-- Embeds `BrowserAgentTool.get_page_text`. -/
def get_page_text (t : BrowserAgentTool) : MRes String :=
  ⟨t, (get_page_text_run t).1, (get_page_text_run t).2⟩

/-- The element loop of `get_elements_by_selector`, starting at 0-based index
`i`: for each element call `inner_text`, the tagName `evaluate`, the
attributes `evaluate`, append the block, and continue; the first failing call
raises, discarding the partial result. -/
def render_elements : List Element → Nat → List Call × Except Err String
  | [], _ => ([], Except.ok "")
  | el :: rest, i =>
    match el.inner_text with
    | Except.error e => ([Call.innerText], Except.error e)
    | Except.ok text =>
      match el.evaluate_tagName with
      | Except.error e => ([Call.innerText, Call.evalTagName], Except.error e)
      | Except.ok tag =>
        match el.evaluate_attributes with
        | Except.error e =>
          ([Call.innerText, Call.evalTagName, Call.evalAttributes], Except.error e)
        | Except.ok attrs =>
          (Call.innerText :: Call.evalTagName :: Call.evalAttributes ::
            (render_elements rest (i + 1)).1,
           match (render_elements rest (i + 1)).2 with
           | Except.error e => Except.error e
           | Except.ok restStr => Except.ok (element_block i tag text attrs ++ restStr))

/-- The `try` body of `get_elements_by_selector`:
`self.page.query_selector_all(selector)`, the early return on an empty match
list, else the header plus the element loop. -/
def get_elements_try (t : BrowserAgentTool) (selector : String) : List Call × Except Err String :=
  match t.page with
  | none => ([], Except.error (nullAttrErr "query_selector_all"))
  | some p =>
    match p.query_selector_all selector with
    | Except.error e => ([Call.queryAll selector], Except.error e)
    | Except.ok [] => ([Call.queryAll selector], Except.ok (noElementsMsg selector))
    | Except.ok (el :: rest) =>
      (Call.queryAll selector :: (render_elements (el :: rest) 0).1,
       match (render_elements (el :: rest) 0).2 with
       | Except.error e => Except.error e
       | Except.ok body => Except.ok (foundHeader selector (el :: rest).length ++ body))

/-- Embeds `BrowserAgentTool.get_elements_by_selector`. -/
def get_elements_by_selector (t : BrowserAgentTool) (selector : String) : MRes String :=
  ⟨t, (get_elements_try t selector).1, pyTry (get_elements_try t selector).2 elemErrMsg⟩

/-- The `try` body of `click_element`:
`self.page.locator(selector).click(timeout=5000)` then the success string. -/
def click_try (t : BrowserAgentTool) (selector : String) : List Call × Except Err String :=
  match t.page with
  | none => ([], Except.error (nullAttrErr "locator"))
  | some p =>
    match p.locator_click selector 5000 with
    | Except.error e => ([Call.locatorClick selector 5000], Except.error e)
    | Except.ok _ => ([Call.locatorClick selector 5000], Except.ok (clickSuccessMsg selector))

/-- Embeds `BrowserAgentTool.click_element`. -/
def click_element (t : BrowserAgentTool) (selector : String) : MRes String :=
  ⟨t, (click_try t selector).1, pyTry (click_try t selector).2 (clickFailMsg selector)⟩

/-- The `try` body of `fill_form`:
`self.page.locator(selector).fill(value, timeout=5000)` then the success string. -/
def fill_try (t : BrowserAgentTool) (selector value : String) : List Call × Except Err String :=
  match t.page with
  | none => ([], Except.error (nullAttrErr "locator"))
  | some p =>
    match p.locator_fill selector value 5000 with
    | Except.error e => ([Call.locatorFill selector value 5000], Except.error e)
    | Except.ok _ => ([Call.locatorFill selector value 5000], Except.ok (fillSuccessMsg selector))

/-- Embeds `BrowserAgentTool.fill_form`. -/
def fill_form (t : BrowserAgentTool) (selector value : String) : MRes String :=
  ⟨t, (fill_try t selector value).1, pyTry (fill_try t selector value).2 (fillFailMsg selector)⟩

/-- Observable data of one matched element: inner text, tag name, attributes. -/
structure ElemData where
  text : String
  tag : String
  attrs : List (String × String)
  deriving DecidableEq

/-- An element handle all of whose introspection calls succeed with the given
data. -/
def mkElement (d : ElemData) : Element :=
  ⟨Except.ok d.text, Except.ok d.tag, Except.ok d.attrs⟩

/-- Spec-side rendering of one report block, per the spec: a
`--- Element k ---` block listing the tag name, the trimmed inner text and
the attribute name-to-value mapping. -/
def spec_block (k : Nat) (d : ElemData) : String :=
  "--- Element " ++ toString k ++ " ---\n" ++
  "Tag: " ++ d.tag ++ "\n" ++
  "Text: " ++ str_strip d.text ++ "\n" ++
  "Attributes: " ++ reprAttrs d.attrs ++ "\n\n"

/-- Spec-side rendering of the block sequence: exactly one block per element,
numbered consecutively from `k`, in the given (DOM match) order. -/
def spec_blocks : Nat → List ElemData → String
  | _, [] => ""
  | k, d :: rest => spec_block k d ++ spec_blocks (k + 1) rest

/-- Spec-side rendering of the whole report: a header stating
`Found N elements with selector <selector>:` for `N` the number of matches,
followed by the `N` blocks numbered `1..N` in order. -/
def spec_report (selector : String) (ds : List ElemData) : String :=
  "Found " ++ toString ds.length ++ " elements with selector \x27" ++ selector ++ "\x27:\n" ++
  spec_blocks 1 ds

/-- Substring containment: `sub` occurs contiguously somewhere in `s`. -/
def containsSub (s sub : String) : Prop := ∃ a b, s = a ++ (sub ++ b)

/-- A page all of whose engine calls succeed (selector queries match nothing). -/
def okPage : Page where
  goto := fun _ => Except.ok ()
  title := Except.ok "Example Domain"
  content := Except.ok "<html></html>"
  text_content := fun _ => Except.ok "hello"
  query_selector_all := fun _ => Except.ok []
  locator_click := fun _ _ => Except.ok ()
  locator_fill := fun _ _ _ => Except.ok ()

/-- A browser handle whose calls succeed. -/
def okBrowser : Browser := ⟨Except.ok okPage, Except.ok ()⟩

/-- An engine handle whose calls succeed. -/
def okPlaywright : Playwright := ⟨Except.ok okBrowser, Except.ok ()⟩

/-- A fully initialized instance over the always-succeeding engine. -/
def readyTool : BrowserAgentTool := ⟨some okPlaywright, some okBrowser, some okPage⟩

/-- Two sample matched elements. -/
def sampleData : List ElemData :=
  [⟨"  hello ", "A", [("href", "x")]⟩, ⟨"world", "DIV", []⟩]

/-- A page whose selector query returns the two sample elements. -/
def samplePage : Page :=
  { okPage with query_selector_all := fun _ => Except.ok (sampleData.map mkElement) }

/-- An instance whose page is `samplePage`. -/
def sampleTool : BrowserAgentTool := ⟨none, none, some samplePage⟩

/-- A page whose content and text retrieval calls fail. -/
def failPage : Page :=
  { okPage with
      content := Except.error "engine boom"
      text_content := fun _ => Except.error "engine boom" }

/-- An instance whose page is `failPage`. -/
def failTool : BrowserAgentTool := ⟨none, none, some failPage⟩

/-- Helper: split a merged string literal off the head of an append chain. -/
lemma append_split (p q pq x : String) (hpq : pq = p ++ q) : pq ++ x = p ++ (q ++ x) := by
  rw [hpq, String.append_assoc]

/-- Helper: a `pyTry`-wrapped body always returns an ordinary string. -/
lemma pyTry_ok (r : Except Err String) (h : Err → String) : ∃ s, pyTry r h = Except.ok s := by
  cases r with
  | error e => exact ⟨h e, rfl⟩
  | ok s => exact ⟨s, rfl⟩

/-- Helper: the success message of `go_to_url` contains its marker phrase. -/
lemma navSuccess_contains_marker (url ttl : String) :
    containsSub (navSuccessMsg url ttl) "Successfully navigated to" := by
  refine ⟨"", " " ++ (url ++ (". The current page title is: \x27" ++ (ttl ++ "\x27"))), ?_⟩
  have h1 : navSuccessMsg url ttl
      = "Successfully navigated to " ++
        (url ++ (". The current page title is: \x27" ++ (ttl ++ "\x27"))) := by
    simp [navSuccessMsg, String.append_assoc]
  rw [h1, append_split "Successfully navigated to" " " "Successfully navigated to " _ rfl]
  rfl

/-- Helper: the success message of `go_to_url` contains the page title. -/
lemma navSuccess_contains_title (url ttl : String) :
    containsSub (navSuccessMsg url ttl) ttl :=
  ⟨"Successfully navigated to " ++ url ++ ". The current page title is: \x27", "\x27",
   by simp [navSuccessMsg, String.append_assoc]⟩

/-- Helper: the failure message of `go_to_url` contains its marker phrase. -/
lemma navFail_contains_marker (url e : String) :
    containsSub (navFailMsg url e) "Failed to navigate" := by
  refine ⟨"", " to " ++ (url ++ (". Error: " ++ e)), ?_⟩
  have h1 : navFailMsg url e = "Failed to navigate to " ++ (url ++ (". Error: " ++ e)) := by
    simp [navFailMsg, String.append_assoc]
  rw [h1, append_split "Failed to navigate" " to " "Failed to navigate to " _ rfl]
  rfl

/-- Helper: the failure message of `go_to_url` contains the error description. -/
lemma navFail_contains_err (url e : String) :
    containsSub (navFailMsg url e) e := by
  refine ⟨"Failed to navigate to " ++ url ++ ". Error: ", "", ?_⟩
  simp [navFailMsg, String.append_assoc]

/-- C1: go_to_url, get_elements_by_selector, click_element and fill_form each
catch every engine-level failure locally and return an ordinary string; for
every instance state (hence every engine behaviour and every input) none of
the four ever raises to its caller. -/
theorem four_methods_never_raise (t : BrowserAgentTool) (url sel sel2 sel3 v : String) :
    (∃ s, (go_to_url t url).result = Except.ok s) ∧
    (∃ s, (get_elements_by_selector t sel).result = Except.ok s) ∧
    (∃ s, (click_element t sel2).result = Except.ok s) ∧
    (∃ s, (fill_form t sel3 v).result = Except.ok s) :=
  ⟨pyTry_ok _ _, pyTry_ok _ _, pyTry_ok _ _, pyTry_ok _ _⟩

/-- C5: when the selector matches zero elements, get_elements_by_selector
returns exactly the string No elements found with selector: quoted selector,
as an ordinary (non-error) return. -/
theorem get_elements_zero_matches (t : BrowserAgentTool) (p : Page) (selector : String)
    (hp : t.page = some p) (hq : p.query_selector_all selector = Except.ok []) :
    (get_elements_by_selector t selector).result
      = Except.ok ("No elements found with selector: \x27" ++ selector ++ "\x27") := by
  obtain ⟨pw, br, pg⟩ := t
  subst hp
  simp [get_elements_by_selector, get_elements_try, hq, pyTry, noElementsMsg]

/-- Witness for C5 at a concrete page whose query matches nothing. -/
theorem get_elements_zero_matches_witness :
    (get_elements_by_selector readyTool ".nonexistent-class-xyz").result
      = Except.ok ("No elements found with selector: \x27.nonexistent-class-xyz\x27") :=
  get_elements_zero_matches readyTool okPage ".nonexistent-class-xyz" rfl rfl

/-- C6: get_page_content and get_page_text have no local error handling: a
failing engine call propagates unchanged as a raised error, and a succeeding
one is returned unchanged (no failure string is ever substituted). -/
theorem content_text_no_local_handling (t : BrowserAgentTool) (p : Page) (e : Err)
    (hp : t.page = some p) :
    (p.content = Except.error e → (get_page_content t).result = Except.error e) ∧
    (p.text_content "body" = Except.error e → (get_page_text t).result = Except.error e) ∧
    (∀ s, p.content = Except.ok s → (get_page_content t).result = Except.ok s) ∧
    (∀ s, p.text_content "body" = Except.ok s → (get_page_text t).result = Except.ok s) := by
  obtain ⟨pw, br, pg⟩ := t
  subst hp
  refine ⟨fun h => ?_, fun h => ?_, fun s h => ?_, fun s h => ?_⟩ <;>
    simp [get_page_content, get_page_content_run, get_page_text, get_page_text_run, h]

/-- Witness for C6 at a concrete page whose retrieval calls fail. -/
theorem content_text_no_local_handling_witness :
    (get_page_content failTool).result = Except.error "engine boom" ∧
    (get_page_text failTool).result = Except.error "engine boom" :=
  ⟨(content_text_no_local_handling failTool failPage "engine boom" rfl).1 rfl,
   (content_text_no_local_handling failTool failPage "engine boom" rfl).2.1 rfl⟩

/-- C7: on every call with a live page handle, click_element and fill_form
each issue exactly one actionable-wait engine call carrying the fixed 5000 ms
timeout, whatever the engine outcome; neither method takes a timeout
parameter, so the value is not configurable per call. -/
theorem click_fill_fixed_timeout (t : BrowserAgentTool) (p : Page) (sel v : String)
    (hp : t.page = some p) :
    (click_element t sel).trace = [Call.locatorClick sel 5000] ∧
    (fill_form t sel v).trace = [Call.locatorFill sel v 5000] := by
  obtain ⟨pw, br, pg⟩ := t
  subst hp
  constructor
  · cases h : p.locator_click sel 5000 <;> simp [click_element, click_try, h]
  · cases h : p.locator_fill sel v 5000 <;> simp [fill_form, fill_try, h]

/-- Witness for C7 at a concrete ready instance. -/
theorem click_fill_fixed_timeout_witness :
    (click_element readyTool "#btn").trace = [Call.locatorClick "#btn" 5000] ∧
    (fill_form readyTool "#btn" "hello").trace = [Call.locatorFill "#btn" "hello" 5000] :=
  click_fill_fixed_timeout readyTool okPage "#btn" "hello" rfl

/-- C8: cleanup on a never-initialized instance returns normally and issues no
engine calls at all; and because cleanup leaves the instance state unchanged,
a second cleanup right after a successful one also returns normally. -/
theorem cleanup_safe_repeat :
    ((cleanup freshTool).result = Except.ok () ∧ (cleanup freshTool).trace = []) ∧
    (∀ t : BrowserAgentTool, (cleanup t).result = Except.ok () →
      (cleanup (cleanup t).state).result = Except.ok ()) :=
  ⟨⟨rfl, rfl⟩, fun _ h => h⟩

/-- Witness for C8: the double cleanup on a concrete ready instance. -/
theorem cleanup_safe_repeat_witness :
    (cleanup (cleanup readyTool).state).result = Except.ok () :=
  cleanup_safe_repeat.2 readyTool rfl

/-- C9: with no page handle (initialize never ran), the four catching methods
absorb the NoneType attribute error and return their failure strings, while
get_page_content and get_page_text raise that error to the caller. -/
theorem pre_init_call_behavior (t : BrowserAgentTool) (url sel sel2 sel3 v : String)
    (hp : t.page = none) :
    (go_to_url t url).result = Except.ok (navFailMsg url (nullAttrErr "goto")) ∧
    (get_elements_by_selector t sel).result
      = Except.ok (elemErrMsg (nullAttrErr "query_selector_all")) ∧
    (click_element t sel2).result = Except.ok (clickFailMsg sel2 (nullAttrErr "locator")) ∧
    (fill_form t sel3 v).result = Except.ok (fillFailMsg sel3 (nullAttrErr "locator")) ∧
    (get_page_content t).result = Except.error (nullAttrErr "content") ∧
    (get_page_text t).result = Except.error (nullAttrErr "text_content") := by
  obtain ⟨pw, br, pg⟩ := t
  subst hp
  exact ⟨rfl, rfl, rfl, rfl, rfl, rfl⟩

/-- Witness for C9 at the fresh instance produced by the constructor. -/
theorem pre_init_call_behavior_witness :
    (go_to_url freshTool "http://a").result
      = Except.ok (navFailMsg "http://a" (nullAttrErr "goto")) ∧
    (get_elements_by_selector freshTool "a").result
      = Except.ok (elemErrMsg (nullAttrErr "query_selector_all")) ∧
    (click_element freshTool "#b").result
      = Except.ok (clickFailMsg "#b" (nullAttrErr "locator")) ∧
    (fill_form freshTool "#c" "x").result
      = Except.ok (fillFailMsg "#c" (nullAttrErr "locator")) ∧
    (get_page_content freshTool).result = Except.error (nullAttrErr "content") ∧
    (get_page_text freshTool).result = Except.error (nullAttrErr "text_content") :=
  pre_init_call_behavior freshTool "http://a" "a" "#b" "#c" "x" rfl

/-- C10: none of the five action methods nor cleanup changes the three handle
fields of the instance: each returns the state it received, so after cleanup
the fields still reference the now-closed handles. -/
theorem action_methods_preserve_handles (t : BrowserAgentTool) (url sel sel2 sel3 v : String) :
    (go_to_url t url).state = t ∧
    (get_page_content t).state = t ∧
    (get_page_text t).state = t ∧
    (get_elements_by_selector t sel).state = t ∧
    (click_element t sel2).state = t ∧
    (fill_form t sel3 v).state = t ∧
    (cleanup t).state = t :=
  ⟨rfl, rfl, rfl, rfl, rfl, rfl, rfl⟩

/-- C2 counterexample: on a fully initialized instance over the
always-succeeding engine, cleanup issues exactly a browser close followed by
an engine stop — no page-close call occurs, so cleanup does not close the
page before the browser as the claim states. -/
theorem cleanup_counterexample :
    (cleanup readyTool).trace = [Call.closeBrowser, Call.stopPlaywright] ∧
    Call.closePage ∉ (cleanup readyTool).trace := by
  decide

/-- C2 (amended): cleanup closes the browser and then stops the engine, in
that dependency order, tolerating either handle being absent (a missing
handle is skipped); it issues no explicit page-close call — the page is
released implicitly by closing the browser. -/
theorem cleanup_close_order (t : BrowserAgentTool)
    (hb : ∀ br, t.browser = some br → br.close = Except.ok ()) :
    (cleanup t).trace =
      (if t.browser.isSome then [Call.closeBrowser] else []) ++
      (if t.playwright.isSome then [Call.stopPlaywright] else []) ∧
    Call.closePage ∉ (cleanup t).trace := by
  obtain ⟨pw, br, pg⟩ := t
  cases br with
  | none =>
    cases pw with
    | none => exact ⟨rfl, by simp [cleanup, cleanup_run]⟩
    | some pw1 =>
      cases h : pw1.stop <;> simp [cleanup, cleanup_run, h]
  | some br1 =>
    have hc : br1.close = Except.ok () := hb br1 rfl
    cases pw with
    | none => simp [cleanup, cleanup_run, hc]
    | some pw1 =>
      cases h : pw1.stop <;> simp [cleanup, cleanup_run, hc, h]

/-- Witness for the amended C2 at the concrete ready instance. -/
theorem cleanup_close_order_witness :
    (cleanup readyTool).trace =
      (if readyTool.browser.isSome then [Call.closeBrowser] else []) ++
      (if readyTool.playwright.isSome then [Call.stopPlaywright] else []) ∧
    Call.closePage ∉ (cleanup readyTool).trace :=
  cleanup_close_order readyTool (fun br h => by
    have h2 : okBrowser = br := Option.some.inj h
    rw [← h2]
    rfl)

/-- C3: when navigation and the title retrieval succeed, go_to_url returns the
success string, which contains the phrase Successfully navigated to and the
page title; when the page handle is absent, the goto call fails, or the title
call fails, it returns (never raises) the failure string, which contains the
phrase Failed to navigate together with the error description. -/
theorem go_to_url_outcomes (t : BrowserAgentTool) (url : String) :
    (∀ p ttl, t.page = some p → p.goto url = Except.ok () → p.title = Except.ok ttl →
      (go_to_url t url).result = Except.ok (navSuccessMsg url ttl) ∧
      containsSub (navSuccessMsg url ttl) "Successfully navigated to" ∧
      containsSub (navSuccessMsg url ttl) ttl) ∧
    (∀ p e, t.page = some p → p.goto url = Except.error e →
      (go_to_url t url).result = Except.ok (navFailMsg url e) ∧
      containsSub (navFailMsg url e) "Failed to navigate" ∧
      containsSub (navFailMsg url e) e) ∧
    (∀ p e, t.page = some p → p.goto url = Except.ok () → p.title = Except.error e →
      (go_to_url t url).result = Except.ok (navFailMsg url e)) ∧
    (t.page = none →
      (go_to_url t url).result = Except.ok (navFailMsg url (nullAttrErr "goto")) ∧
      containsSub (navFailMsg url (nullAttrErr "goto")) "Failed to navigate") := by
  obtain ⟨pw, br, pg⟩ := t
  refine ⟨?_, ?_, ?_, ?_⟩
  · rintro p ttl hp hgoto htitle
    cases hp
    exact ⟨by simp [go_to_url, go_to_url_try, hgoto, htitle, pyTry],
      navSuccess_contains_marker url ttl, navSuccess_contains_title url ttl⟩
  · rintro p e hp hgoto
    cases hp
    exact ⟨by simp [go_to_url, go_to_url_try, hgoto, pyTry],
      navFail_contains_marker url e, navFail_contains_err url e⟩
  · rintro p e hp hgoto htitle
    cases hp
    simp [go_to_url, go_to_url_try, hgoto, htitle, pyTry]
  · rintro hp
    cases hp
    exact ⟨rfl, navFail_contains_marker url (nullAttrErr "goto")⟩

/-- Witness for C3 at the concrete ready instance (successful navigation). -/
theorem go_to_url_outcomes_witness :
    (go_to_url readyTool "https://example.com").result
      = Except.ok (navSuccessMsg "https://example.com" "Example Domain") ∧
    containsSub (navSuccessMsg "https://example.com" "Example Domain")
      "Successfully navigated to" ∧
    containsSub (navSuccessMsg "https://example.com" "Example Domain") "Example Domain" :=
  (go_to_url_outcomes readyTool "https://example.com").1 okPage "Example Domain" rfl rfl rfl

/-- Helper: the element loop over elements whose introspection calls all
succeed renders the consecutive blocks, numbered from the 1-based index. -/
lemma render_elements_mk (ds : List ElemData) :
    ∀ i, (render_elements (ds.map mkElement) i).2 = Except.ok (spec_blocks (i + 1) ds) := by
  induction ds with
  | nil => intro i; rfl
  | cons d rest ih =>
    intro i
    simp [render_elements, mkElement, spec_blocks, spec_block, element_block, ih (i + 1)]

/-- C4: when the selector matches one or more elements and the per-element
introspection succeeds, get_elements_by_selector returns exactly the report
of the spec: a header stating Found N elements with the quoted selector,
followed by exactly N blocks, numbered 1..N in the engine match order, each
listing the tag name, the whitespace-trimmed inner text and the attribute
name-to-value mapping. -/
theorem get_elements_report (t : BrowserAgentTool) (p : Page) (selector : String)
    (ds : List ElemData) (hp : t.page = some p) (hne : ds ≠ [])
    (hq : p.query_selector_all selector = Except.ok (ds.map mkElement)) :
    (get_elements_by_selector t selector).result = Except.ok (spec_report selector ds) := by
  obtain ⟨pw, br, pg⟩ := t
  cases hp
  cases ds with
  | nil => exact absurd rfl hne
  | cons d rest =>
    have hr := render_elements_mk (d :: rest) 0
    simp only [List.map_cons] at hq hr
    simp [get_elements_by_selector, get_elements_try, hq, pyTry, hr, spec_report, foundHeader]

/-- Witness for C4 at the concrete sample page with two matched elements. -/
theorem get_elements_report_witness :
    (get_elements_by_selector sampleTool "a").result = Except.ok (spec_report "a" sampleData) :=
  get_elements_report sampleTool samplePage "a" sampleData rfl (by decide) rfl
